import Mathlib

/-!
Verification development for the mitmproxy command-language slice:
the lexer (mitmproxy/language/lexer.py), the tolerant grammar
(mitmproxy/language/interactive_parser.py), the markup structures
(mitmproxy/language/structures.py), the command registry with its
asynchronous execution tracker (mitmproxy/command.py), and the console
command buffer (mitmproxy/tools/console/commander/commander.py).

Conventions. Python integers are unbounded, so Nat and Int are used
directly. A Python call that can raise is modelled as an Except value;
Except.error e means the call raised the exception e. Python strings are
modelled as String or as List Char where character-level slicing matters.
Identifiers keep the source names where possible; a few are renamed where
noted in the doc comment of the definition.
-/

namespace Mitm

/-- Python exception values raised by the modelled code. -/
inductive PyErr
  | commandError (msg : String)      -- mitmproxy.exceptions.CommandError
  | typeError (msg : String)         -- builtin TypeError
  | valueError (msg : String)        -- builtin ValueError
  | keyError (msg : String)          -- builtin KeyError
  | attributeError (msg : String)    -- builtin AttributeError
  | unboundLocalError (msg : String) -- builtin UnboundLocalError
  deriving Repr, DecidableEq

/-- The single-quote character, written by code point to keep source plain. -/
def sq : Char := Char.ofNat 39

/-- The double-quote character, written by code point to keep source plain. -/
def dq : Char := Char.ofNat 34

/-! ## Lexer (mitmproxy/language/lexer.py) -/

/-- Token kinds, from CommandLanguageLexer.tokens (lexer.py lines 7-17). -/
inductive TokKind
  | WHITESPACE
  | COMMAND
  | PLAIN_STR
  | LPAREN
  | RPAREN
  | LBRACE
  | RBRACE
  | PIPE
  | QUOTED_STR
  deriving Repr, DecidableEq

/-- A lexed token: kind plus matched literal text (ply LexToken restricted
to the fields the code reads). -/
structure Tok where
  kind : TokKind
  text : List Char
  deriving Repr, DecidableEq

/-- Python regex class backslash-s, restricted to the ASCII range. -/
def pySpace (c : Char) : Bool :=
  c = ' ' || c = '\t' || c = '\n' || c = '\r' || c = '\x0b' || c = '\x0c'

/-- Python regex class backslash-w, restricted to ASCII alphanumerics plus
underscore. -/
def isWordChar (c : Char) : Bool :=
  c.isAlphanum || c = '_'

/-- Characters excluded by the t_PLAIN_STR character class (lexer.py
line 45): pipe, brackets, parens and whitespace. -/
def plainExcluded (c : Char) : Bool :=
  c = '|' || c = '[' || c = ']' || c = '(' || c = ')' || pySpace c

/-- Greedy longest run of characters satisfying p together with the rest of
the input; models a greedy X+ or X* regex piece. -/
def spanP (p : Char → Bool) : List Char → List Char × List Char
  | [] => ([], [])
  | c :: cs =>
    if p c then (c :: (spanP p cs).1, (spanP p cs).2)
    else ([], c :: cs)

/-- The greedy group tail of the t_COMMAND regex (lexer.py line 34):
consume as many dot-then-word groups as possible, returning the consumed
characters and the rest. The fuel argument only bounds the recursion; fuel
equal to the input length always suffices because each consumed group is at
least two characters long. -/
def dotGroups : Nat → List Char → List Char × List Char
  | 0, cs => ([], cs)
  | fuel + 1, cs =>
    match cs with
    | c :: cs1 =>
      if c = '.' then
        if (spanP isWordChar cs1).1.isEmpty then ([], cs)
        else
          (c :: ((spanP isWordChar cs1).1 ++ (dotGroups fuel (spanP isWordChar cs1).2).1),
           (dotGroups fuel (spanP isWordChar cs1).2).2)
      else ([], cs)
    | [] => ([], cs)

/-- t_COMMAND (lexer.py lines 33-35): the regex of a word followed by at
least one dot-word group, both greedy. Fails when there is no leading word
or no complete dot-word group follows it; regex backtracking can never
succeed in those situations because shortening the leading word exposes a
word character where a dot is required. -/
def scanCommand (cs : List Char) : Option (List Char × List Char) :=
  if (spanP isWordChar cs).1.isEmpty then none
  else
    if (dotGroups cs.length (spanP isWordChar cs).2).1.isEmpty then none
    else
      some ((spanP isWordChar cs).1 ++ (dotGroups cs.length (spanP isWordChar cs).2).1,
            (dotGroups cs.length (spanP isWordChar cs).2).2)

/-- One branch of t_QUOTED_STR (lexer.py lines 37-42): the regex of a run
of quotes, a run of non-quotes, and a closing run of quotes, with Python
backtracking semantics. When the greedy attempt finds no closing quote and
the opening run has at least two quotes, the regex backtracks to matching
the opening run alone (all but the last quote as the opening run, an empty
body, and the final quote of the run as the closing run). -/
def scanQuoted (q : Char) (cs : List Char) : Option (List Char × List Char) :=
  if (spanP (fun c => c == q) cs).1.isEmpty then none
  else
    if (spanP (fun c => c == q) ((spanP (fun c => !(c == q)) (spanP (fun c => c == q) cs).2).2)).1.isEmpty then
      if 2 ≤ (spanP (fun c => c == q) cs).1.length then
        some ((spanP (fun c => c == q) cs).1, (spanP (fun c => c == q) cs).2)
      else none
    else
      some ((spanP (fun c => c == q) cs).1 ++
              (spanP (fun c => !(c == q)) (spanP (fun c => c == q) cs).2).1 ++
              (spanP (fun c => c == q) ((spanP (fun c => !(c == q)) (spanP (fun c => c == q) cs).2).2)).1,
            (spanP (fun c => c == q) ((spanP (fun c => !(c == q)) (spanP (fun c => c == q) cs).2).2)).2)

/-- One ply lexing step. ply tries the function rules t_COMMAND,
t_QUOTED_STR, t_PLAIN_STR in definition order, then the string rules for
whitespace and the single delimiter characters. Because the t_PLAIN_STR
class excludes exactly the delimiter and whitespace characters, and those
characters can start none of the three function rules, dispatching on the
head character first is observably the same rule order; this definition
does so to keep the case analysis direct. A bare word that equals a
registered one-word command name is promoted to a COMMAND token (lexer.py
line 46). -/
def scanOne (ow : List String) : List Char → Option (Tok × List Char)
  | [] => none
  | c :: cs =>
    if pySpace c then
      some (⟨.WHITESPACE, (spanP pySpace (c :: cs)).1⟩, (spanP pySpace (c :: cs)).2)
    else if c = '(' then some (⟨.LPAREN, [c]⟩, cs)
    else if c = ')' then some (⟨.RPAREN, [c]⟩, cs)
    else if c = '[' then some (⟨.LBRACE, [c]⟩, cs)
    else if c = ']' then some (⟨.RBRACE, [c]⟩, cs)
    else if c = '|' then some (⟨.PIPE, [c]⟩, cs)
    else
      match scanCommand (c :: cs) with
      | some r => some (⟨.COMMAND, r.1⟩, r.2)
      | none =>
        match scanQuoted sq (c :: cs) with
        | some r => some (⟨.QUOTED_STR, r.1⟩, r.2)
        | none =>
          match scanQuoted dq (c :: cs) with
          | some r => some (⟨.QUOTED_STR, r.1⟩, r.2)
          | none =>
            if (spanP (fun x => !plainExcluded x) (c :: cs)).1.isEmpty then none
            else
              some (⟨if ow.contains (String.mk (spanP (fun x => !plainExcluded x) (c :: cs)).1)
                       then TokKind.COMMAND else TokKind.PLAIN_STR,
                     (spanP (fun x => !plainExcluded x) (c :: cs)).1⟩,
                    (spanP (fun x => !plainExcluded x) (c :: cs)).2)

/-- How a lexing run can fail: CommandLanguageLexer defines no t_error
rule, so ply raises LexError if no rule matches; outOfFuel marks exhaustion
of the recursion bound (never reached with fuel equal to input length). -/
inductive LexFail
  | noRule
  | outOfFuel
  deriving Repr, DecidableEq

/-- Repeated lexing steps: list(lexer) over the remaining input. Structural
fuel recursion; one token consumes at least one character, so fuel equal to
the input length suffices. -/
def lexAux (ow : List String) : Nat → List Char → Except LexFail (List Tok)
  | _, [] => .ok []
  | 0, _ :: _ => .error .outOfFuel
  | fuel + 1, c :: cs =>
    match scanOne ow (c :: cs) with
    | none => .error .noRule
    | some (t, r) =>
      match lexAux ow fuel r with
      | .ok ts => .ok (t :: ts)
      | .error e => .error e

/-- Tokenization in the interactive lexer state: whitespace is emitted as
WHITESPACE tokens (t_interactive_WHITESPACE, lexer.py line 50). -/
def lexInteractive (ow : List String) (s : String) : Except LexFail (List Tok) :=
  lexAux ow s.length s.data

/-- Tokenization in the INITIAL lexer state: t_ignore_WHITESPACE (lexer.py
line 26) consumes whitespace without emitting tokens; all other rules are
shared with the interactive state. -/
def lexStrict (ow : List String) (s : String) : Except LexFail (List Tok) :=
  (lexInteractive ow s).map (List.filter (fun t => !(t.kind == TokKind.WHITESPACE)))

/-- The token list of a lexing result, empty on failure (the lexer is
total, as proved below, so the default is never used). -/
def tokensOrNil (r : Except LexFail (List Tok)) : List Tok :=
  r.toOption.getD []

/-- The kind string of a token list, which is what the grammars consume. -/
def kindsOf (ts : List Tok) : List TokKind :=
  ts.map Tok.kind

/-! ## Tolerant grammar (mitmproxy/language/interactive_parser.py) -/

/-- Nonterminals of InteractivePartialParser, one per p_ method docstring
(interactive_parser.py lines 20-138). -/
inductive TolCat
  | commandLine   -- command_line (p_command_call)
  | ccnp          -- command_call_no_parentheses
  | arglist       -- arglist (p_arglist)
  | argumentList  -- argument_list
  | argument      -- argument
  | ccwp          -- command_call_with_parentheses
  | corps         -- corps
  | arr           -- array
  | lbrace
  | rbrace
  | lparen
  | rparen
  | eorws
  deriving Repr, DecidableEq

/-- Derivability of a token-kind string from a nonterminal of the tolerant
grammar, transcribed production by production from the docstrings of the
p_ methods of InteractivePartialParser. A yacc-generated parser accepts at
most the sentences derivable from the start symbol command_line, so a token
string that is not derivable makes the generated parser call p_error, which
raises CommandError (interactive_parser.py lines 140-141). Note that no
production mentions the PIPE token. -/
inductive TolDer : TolCat → List TokKind → Prop
  | commandLine_empty : TolDer .commandLine []
  | commandLine_args {ts} : TolDer .argumentList ts → TolDer .commandLine ts
  | commandLine_ccnp {ts} : TolDer .ccnp ts → TolDer .commandLine ts
  | commandLine_ccwp {ts} : TolDer .ccwp ts → TolDer .commandLine ts
  | ccnp_mk {t1 t2 t3 t4} : TolDer .corps t1 → TolDer .eorws t2 →
      TolDer .argumentList t3 → TolDer .eorws t4 →
      TolDer .ccnp (t1 ++ t2 ++ t3 ++ t4)
  | arglist_mk {t1 t2 t3} : TolDer .eorws t1 → TolDer .argumentList t2 →
      TolDer .eorws t3 → TolDer .arglist (t1 ++ t2 ++ t3)
  | argumentList_empty : TolDer .argumentList []
  | argumentList_one {ts} : TolDer .argument ts → TolDer .argumentList ts
  | argumentList_cons {t1 t2 t3} : TolDer .argumentList t1 → TolDer .eorws t2 →
      TolDer .argument t3 → TolDer .argumentList (t1 ++ t2 ++ t3)
  | argument_plain : TolDer .argument [TokKind.PLAIN_STR]
  | argument_quoted : TolDer .argument [TokKind.QUOTED_STR]
  | argument_command : TolDer .argument [TokKind.COMMAND]
  | argument_array {ts} : TolDer .arr ts → TolDer .argument ts
  | argument_ccwp {ts} : TolDer .ccwp ts → TolDer .argument ts
  | ccwp_closed {t1 t2 t3 t4 t5 t6} : TolDer .corps t1 → TolDer .eorws t2 →
      TolDer .lparen t3 → TolDer .arglist t4 → TolDer .rparen t5 →
      TolDer .eorws t6 → TolDer .ccwp (t1 ++ t2 ++ t3 ++ t4 ++ t5 ++ t6)
  | ccwp_open {t1 t2 t3 t4} : TolDer .corps t1 → TolDer .eorws t2 →
      TolDer .lparen t3 → TolDer .arglist t4 → TolDer .ccwp (t1 ++ t2 ++ t3 ++ t4)
  | ccwp_bare {t1 t2 t3 t4} : TolDer .corps t1 → TolDer .eorws t2 →
      TolDer .lparen t3 → TolDer .eorws t4 → TolDer .ccwp (t1 ++ t2 ++ t3 ++ t4)
  | corps_plain : TolDer .corps [TokKind.PLAIN_STR]
  | corps_command : TolDer .corps [TokKind.COMMAND]
  | arr_open {t1} : TolDer .lbrace t1 → TolDer .arr t1
  | arr_args {t1 t2} : TolDer .lbrace t1 → TolDer .argumentList t2 →
      TolDer .arr (t1 ++ t2)
  | arr_closed {t1 t2 t3} : TolDer .lbrace t1 → TolDer .argumentList t2 →
      TolDer .rbrace t3 → TolDer .arr (t1 ++ t2 ++ t3)
  | lbrace_mk : TolDer .lbrace [TokKind.LBRACE]
  | rbrace_mk : TolDer .rbrace [TokKind.RBRACE]
  | lparen_mk : TolDer .lparen [TokKind.LPAREN]
  | rparen_mk : TolDer .rparen [TokKind.RPAREN]
  | eorws_empty : TolDer .eorws []
  | eorws_ws : TolDer .eorws [TokKind.WHITESPACE]

/-! ## Strict grammar -/

/-- Nonterminals of the strict grammar. -/
inductive StrictCat
  | line
  | pipeline
  | stage
  | call
  | arr
  | args
  | arg

/-- Modelled from the spec: the strict full parser
(mitmproxy/language/parser.py) is not under src/, so its grammar is taken
from section 4.4 of the specification: a line is an optional pipe-separated
sequence of command calls and arrays; a call is a name followed by
arguments, or a name with a parenthesized argument list whose closing paren
is required; an array is a bracketed argument list whose closing bracket is
required; arguments are plain strings, quoted strings, command references,
arrays and parenthesized calls; a call name is a command reference or a
bare word. Strict-mode lexing discards whitespace, so derivations range
over whitespace-free kind strings. -/
inductive StrictDer : StrictCat → List TokKind → Prop
  | line_empty : StrictDer .line []
  | line_pipe {ts} : StrictDer .pipeline ts → StrictDer .line ts
  | pipeline_one {ts} : StrictDer .stage ts → StrictDer .pipeline ts
  | pipeline_cons {t1 t2} : StrictDer .pipeline t1 → StrictDer .stage t2 →
      StrictDer .pipeline (t1 ++ TokKind.PIPE :: t2)
  | stage_call {ts} : StrictDer .call ts → StrictDer .stage ts
  | stage_arr {ts} : StrictDer .arr ts → StrictDer .stage ts
  | call_bare {k ts} : (k = TokKind.COMMAND ∨ k = TokKind.PLAIN_STR) →
      StrictDer .args ts → StrictDer .call (k :: ts)
  | call_paren {k ts} : (k = TokKind.COMMAND ∨ k = TokKind.PLAIN_STR) →
      StrictDer .args ts →
      StrictDer .call (k :: TokKind.LPAREN :: (ts ++ [TokKind.RPAREN]))
  | arr_mk {ts} : StrictDer .args ts →
      StrictDer .arr (TokKind.LBRACE :: (ts ++ [TokKind.RBRACE]))
  | args_nil : StrictDer .args []
  | args_cons {t1 t2} : StrictDer .arg t1 → StrictDer .args t2 →
      StrictDer .args (t1 ++ t2)
  | arg_plain : StrictDer .arg [TokKind.PLAIN_STR]
  | arg_quoted : StrictDer .arg [TokKind.QUOTED_STR]
  | arg_command : StrictDer .arg [TokKind.COMMAND]
  | arg_arr {ts} : StrictDer .arr ts → StrictDer .arg ts
  | arg_call {k ts} : (k = TokKind.COMMAND ∨ k = TokKind.PLAIN_STR) →
      StrictDer .args ts →
      StrictDer .arg (k :: TokKind.LPAREN :: (ts ++ [TokKind.RPAREN]))

/-! ## Typed argument system -/

/-- Modelled from the spec: mitmproxy.types is not under src/. Section 4.2
defines the typed argument system as a fixed mapping from type identifier
to parse, validate and complete operations; this carries the identifiers of
the base types the claims need (string, int, bool). -/
inductive MType
  | tStr
  | tInt
  | tBool
  deriving Repr, DecidableEq

/-- A runtime Python value passed to or returned from a command. -/
inductive MVal
  | vNone
  | vStr (s : String)
  | vInt (n : Int)
  | vBool (b : Bool)
  deriving Repr, DecidableEq

/-- Digit-string to number, None when a character is not a digit or the
string is empty; the digit part of the int constructor of Python. -/
def digitsToNat : List Char → Option Nat
  | [] => none
  | [c] => if c.isDigit then some (c.toNat - 48) else none
  | c :: cs =>
    if c.isDigit then
      match digitsToNat cs with
      | some n => some ((c.toNat - 48) * 10 ^ cs.length + n)
      | none => none
    else none

/-- The int constructor of Python on a trimmed string: an optional sign
followed by at least one digit. -/
def pyParseInt (s : String) : Option Int :=
  match s.data with
  | '-' :: cs =>
    match digitsToNat cs with
    | some n => some (-(n : Int))
    | none => none
  | cs =>
    match digitsToNat cs with
    | some n => some ((n : Int))
    | none => none

/-- Modelled from the spec: the parse operation of the typed argument
system (section 4.2), string to value or TypeError. -/
def typeParse (t : MType) (raw : String) : Except PyErr MVal :=
  match t with
  | .tStr => .ok (.vStr raw)
  | .tInt =>
    match pyParseInt raw with
    | some n => .ok (.vInt n)
    | none => .error (.typeError ("expected an integer"))
  | .tBool =>
    if raw = "true" then .ok (.vBool true)
    else if raw = "false" then .ok (.vBool false)
    else .error (.typeError ("expected a boolean"))

/-- Modelled from the spec: the validate operation of the typed argument
system (section 4.2), checking an already-typed value against the type. -/
def typeIsValid (t : MType) (v : MVal) : Bool :=
  match t, v with
  | .tStr, .vStr _ => true
  | .tInt, .vInt _ => true
  | .tBool, .vBool _ => true
  | _, _ => false

/-- Modelled from the spec: the display name of a type (section 4.2). -/
def typeDisplay : MType → String
  | .tStr => "str"
  | .tInt => "int"
  | .tBool => "bool"

/-! ## Command registry (mitmproxy/command.py) -/

/-- Command (command.py lines 76-99), restricted to the fields its methods
read: the declared parameter types, the optional declared return type
(none is inspect._empty, that is, no annotation), the wrapped callable
modelled as a Lean function on the prepared argument list, and the *args
flag has_positional. Command.__init__ validates all annotations against the
type registry via signature_help, so the parameter and return types of a
registered command are registered type identifiers. -/
structure Cmd where
  paramtypes : List MType
  returntype : Option MType
  func : List MVal → MVal
  has_positional : Bool

/-- verify_arg_signature (command.py lines 17-22): inspect.Signature.bind
on the callable, whose parameters here are plain positional names plus a
trailing *args exactly when has_positional. Binding raises TypeError, which
is wrapped into CommandError, when fewer arguments than fixed parameters
are given, or more arguments when there is no *args parameter. -/
def verify_arg_sig (c : Cmd) (args : List MVal) : Except PyErr Unit :=
  if args.length < (if c.has_positional then c.paramtypes.length - 1 else c.paramtypes.length) then
    .error (.commandError ("command argument mismatch: missing a required argument"))
  else if c.has_positional = false ∧ c.paramtypes.length < args.length then
    .error (.commandError ("command argument mismatch: too many positional arguments"))
  else .ok ()

/-- parsearg (command.py lines 281-291): coerce a string via the parse
operation of its declared type, wrapping TypeError into CommandError. -/
def parsearg (t : MType) (s : String) : Except PyErr MVal :=
  match typeParse t s with
  | .ok v => .ok v
  | .error _ => .error (.commandError ("argument parse failed"))

/-- The coercion loop of Command.prepare_args (command.py lines 125-137):
zip of the fixed arguments with the declared parameter types, coercing
string arguments via parsearg and validating non-string arguments in place
via is_valid; the first failure aborts the loop. -/
def coerceArgs : List MVal → List MType → Except PyErr (List MVal)
  | [], _ => .ok []
  | _ :: _, [] => .ok []
  | a :: rest, t :: ts =>
    match (match a with
           | .vStr s => parsearg t s
           | _ =>
             if typeIsValid t a then .ok a
             else .error (.commandError ("unexpected data for " ++ typeDisplay t ++ " type"))) with
    | .error e => .error e
    | .ok v =>
      match coerceArgs rest ts with
      | .error e => .error e
      | .ok vs => .ok (v :: vs)

/-- Command.prepare_args (command.py lines 117-139): verify the call shape
against the signature, split off the *args remainder when has_positional,
coerce the fixed arguments, and pass the remainder through uncoerced. -/
def prepare_args (c : Cmd) (args : List MVal) : Except PyErr (List MVal) :=
  match verify_arg_sig c args with
  | .error e => .error e
  | .ok _ =>
    match coerceArgs
        (if c.has_positional then args.take (c.paramtypes.length - 1) else args)
        c.paramtypes with
    | .error e => .error e
    | .ok pargs =>
      .ok (pargs ++ (if c.has_positional then args.drop (c.paramtypes.length - 1) else []))

/-- Command.call (command.py lines 141-154). After the call, a None result
with no declared return type returns immediately; otherwise the declared
return type is looked up with CommandTypes.get(self.returntype). Looking up
None (no annotation) finds no registered entry and yields None, so the
following is_valid attribute access raises AttributeError; for a declared
type, an invalid produced value raises the returned-unexpected-data
CommandError. -/
def cmdCall (c : Cmd) (args : List MVal) : Except PyErr MVal :=
  match prepare_args c args with
  | .error e => .error e
  | .ok pargs =>
    if c.func pargs = MVal.vNone ∧ c.returntype = none then .ok .vNone
    else
      match c.returntype with
      | none => .error (.attributeError ("NoneType object has no attribute is_valid"))
      | some t =>
        if typeIsValid t (c.func pargs) then .ok (c.func pargs)
        else .error (.commandError ("returned unexpected data - expected " ++ typeDisplay t))

/-- A registered command with exactly the two non-variadic declared
parameters A and B, no declared return type, and a callable returning
None. -/
def twoParamCmd (A B : MType) : Cmd :=
  { paramtypes := [A, B], returntype := none, func := fun _ => .vNone,
    has_positional := false }

/-- A registered command with no parameters and no declared return type
whose callable returns the non-None string value x. -/
def noRetCmd : Cmd :=
  { paramtypes := [], returntype := none, func := fun _ => .vStr ("x"),
    has_positional := false }

/-- A registered command with no parameters and declared return type str,
with an arbitrary callable. -/
def retStrCmd (f : List MVal → MVal) : Cmd :=
  { paramtypes := [], returntype := some .tStr, func := f,
    has_positional := false }

/-! ## Asynchronous execution tracker (mitmproxy/command.py lines 46-73) -/

/-- Lifecycle states of an asyncio task as relevant here. -/
inductive TaskState
  | running
  | cancelRequested
  | finishedOk
  | finishedErr
  | finishedCancelled
  deriving Repr, DecidableEq

/-- AsyncExecutionManager (command.py lines 46-73) together with the tasks
it has created: the id counter, the running_cmds mapping from id to command
string in insertion order, and the state of every task ever added (a task
object outlives its tracker entry). -/
structure AEM where
  counter : Nat
  running_cmds : List (Nat × String)
  tasks : List (Nat × TaskState)
  deriving Repr, DecidableEq

/-- Whether an id is currently in running_cmds. -/
def tracked (m : AEM) (cid : Nat) : Bool :=
  m.running_cmds.any (fun p => p.1 == cid)

/-- Point update of a task table entry. -/
def setTask (ts : List (Nat × TaskState)) (cid : Nat) (st : TaskState) :
    List (Nat × TaskState) :=
  ts.map (fun p => if p.1 == cid then (p.1, st) else p)

/-- add_command (command.py lines 51-55): bump the counter, create the
task, register the delete callback on it (its firing is modelled by
finishTask below), and track the entry under the new counter value. -/
def add_command (m : AEM) (cmdstr : String) : AEM :=
  { counter := m.counter + 1,
    running_cmds := m.running_cmds ++ [(m.counter + 1, cmdstr)],
    tasks := m.tasks ++ [(m.counter + 1, TaskState.running)] }

/-- stop_command (command.py lines 57-64): an untracked id raises
ValueError and changes nothing; a tracked id has its task cancelled and its
entry deleted. The result is the state after the call paired with the
raised exception, if any. -/
def stop_command (m : AEM) (cid : Nat) : AEM × Option PyErr :=
  if tracked m cid then
    ({ m with running_cmds := m.running_cmds.filter (fun p => !(p.1 == cid)),
              tasks := setTask m.tasks cid .cancelRequested }, none)
  else (m, some (.valueError ("There is not the command with id")))

/-- A task finishing with the given outcome: the task state is updated,
then the done callback _delete_callback (command.py lines 72-73) runs and
executes del running_cmds[cid]; when the entry is already gone the del
raises KeyError inside the callback. The result is the state after the
callback paired with the exception the callback raised, if any. -/
def finishTask (m : AEM) (cid : Nat) (outcome : TaskState) : AEM × Option PyErr :=
  if tracked { m with tasks := setTask m.tasks cid outcome } cid then
    ({ m with tasks := setTask m.tasks cid outcome,
              running_cmds := m.running_cmds.filter (fun p => !(p.1 == cid)) }, none)
  else ({ m with tasks := setTask m.tasks cid outcome }, some (.keyError ("cid")))

/-! ## Markup structures (mitmproxy/language/structures.py) -/

/-- Arg (structures.py lines 111-115): a rendered argument node carrying
the raw value, the declared type it was checked against, and the validity
flag. -/
structure ArgNode where
  value : String
  typ : Option MType
  valid : Bool
  deriving Repr, DecidableEq

/-- CommandSpace.is_valid (structures.py lines 90-100): a value is valid
for a type when the type is registered and its parse does not raise
TypeError. -/
def csIsValid (t : MType) (v : String) : Bool :=
  match typeParse t v with
  | .ok _ => true
  | .error _ => false

/-- The argument loop of CommandSpace.__init__ (structures.py lines
66-73), with the Python local typ of the previous iteration made explicit.
Each iteration pops the next declared parameter type; when the pop raises
IndexError the handler appends Arg(arg, None, False), but the loop body
then falls through (there is no continue) and appends a second node for the
same argument, re-checked against the stale previous typ; when no previous
typ was ever assigned, that fall-through read raises UnboundLocalError. -/
def csArgLoop (params : List MType) (prevTyp : Option MType) (args : List String) :
    Except PyErr (List ArgNode) :=
  match args with
  | [] => .ok []
  | arg :: rest =>
    match params with
    | t :: ps =>
      match csArgLoop ps (some t) rest with
      | .error e => .error e
      | .ok ns => .ok ({ value := arg, typ := some t, valid := csIsValid t arg } :: ns)
    | [] =>
      match prevTyp with
      | none => .error (.unboundLocalError ("local variable typ referenced before assignment"))
      | some t =>
        match csArgLoop [] (some t) rest with
        | .error e => .error e
        | .ok ns =>
          .ok ({ value := arg, typ := none, valid := false } ::
               { value := arg, typ := some t, valid := csIsValid t arg } :: ns)

/-- CommandSpace.__init__ argument processing (structures.py lines 54-74)
for a command whose declared parameter list is params: the argument nodes
collected into self.arguments. -/
def csArguments (params : List MType) (args : List String) : Except PyErr (List ArgNode) :=
  csArgLoop params none args

/-! ## CommandManager.parse_partial (mitmproxy/command.py lines 214-229) -/

/-- The value CommandManager.parse_partial passes as the second positional
argument of InteractiveLexer: in the source it is self.oneword_commands, a
list of strings, although the parameter it binds to is the lexer state
name. -/
inductive PyStateArg
  | ofString (s : String)
  | ofList (l : List String)

/-- lex.Lexer.begin from ply: looks the requested state up among the
declared lexer states (INITIAL and interactive here). Dictionary membership
hashes the key first, so passing a list raises TypeError for being
unhashable; an unknown string state raises ValueError. -/
def lexerBegin (state : PyStateArg) : Except PyErr Unit :=
  match state with
  | .ofString s =>
    if s = "INITIAL" ∨ s = "interactive" then .ok ()
    else .error (.valueError ("Undefined state"))
  | .ofList _ => .error (.typeError ("unhashable type: list"))

/-- get_tokens (lexer.py lines 64-68): build a lexer with an empty one-word
command list, switch it to the requested state with begin, and return its
token list. -/
def get_tokens (cmdstr : String) (state : PyStateArg) : Except PyErr (List Tok) :=
  match lexerBegin state with
  | .error e => .error e
  | .ok _ =>
    match state with
    | .ofString s =>
      if s = "INITIAL" then .ok (tokensOrNil (lexStrict [] cmdstr))
      else .ok (tokensOrNil (lexInteractive [] cmdstr))
    | .ofList _ => .ok (tokensOrNil (lexInteractive [] cmdstr))

/-- InteractiveLexer.__init__ (lexer.py lines 71-73): stores the result of
get_tokens on the given command string and state argument. -/
def interactiveLexerTokens (cmdstr : String) (state : PyStateArg) :
    Except PyErr (List Tok) :=
  get_tokens cmdstr state

/-- InteractiveLexer.token (lexer.py lines 77-78) reads self.lexer, an
attribute that __init__ never assigns, so the first token request made by
the tolerant parser raises AttributeError. -/
def interactiveLexerNextToken : Except PyErr Tok :=
  .error (.attributeError ("InteractiveLexer object has no attribute lexer"))

/-- CommandManager.parse_partial (command.py lines 214-229), renamed for
Lean. It builds an InteractiveLexer from the command string and the
one-word command list (passed positionally into the state parameter), would
then run the tolerant parser over it, and returns markup spans plus the
whitespace map; only CommandError is caught, producing the single
commander_invalid span fallback; every other exception propagates. -/
def parseTolerantLine (oneword : List String) (cmdstr : String) :
    Except PyErr (List (String × String) × List (Option String)) :=
  match interactiveLexerTokens cmdstr (.ofList oneword) with
  | .error (.commandError _) => .ok ([("commander_invalid", cmdstr)], [])
  | .error e => .error e
  | .ok _ =>
    match interactiveLexerNextToken with
    | .error (.commandError _) => .ok ([("commander_invalid", cmdstr)], [])
    | .error e => .error e
    | .ok _ => .ok ([], [])

/-! ## Command buffer (mitmproxy/tools/console/commander/commander.py) -/

/-- ListCompleter (commander.py lines 19-38): prefix-filtered sorted
options with a rotating offset. -/
structure CompleterState where
  start : String
  options : List String
  offset : Nat
  deriving Repr, DecidableEq

/-- One entry of the parse field of a CompletionState; the source
ParseResult NamedTuple also carries type and valid, which the buffer code
under verification does not read on this path. -/
structure ParseResultVal where
  value : String
  deriving Repr, DecidableEq

/-- CompletionState (commander.py lines 41-47). -/
structure CompletionState where
  completer : CompleterState
  parse : List ParseResultVal
  deriving Repr, DecidableEq

/-- CommandBuffer (commander.py lines 50-151): the edited text as a char
list, the autoclosing flag, the cursor int _cursor, and the active
completion state. -/
structure CommandBuffer where
  text : List Char
  autoclosing : Bool
  cursor : Int
  completion : Option CompletionState

/-- The cursor property setter (commander.py lines 63-70): clamps the
assigned value into the range from 0 to len(text). -/
def setCursor (b : CommandBuffer) (x : Int) : CommandBuffer :=
  if x < 0 then { b with cursor := 0 }
  else if (b.text.length : Int) < x then { b with cursor := (b.text.length : Int) }
  else { b with cursor := x }

/-- left (commander.py lines 100-101). -/
def bufLeft (b : CommandBuffer) : CommandBuffer :=
  setCursor b (b.cursor - 1)

/-- right (commander.py lines 103-104). -/
def bufRight (b : CommandBuffer) : CommandBuffer :=
  setCursor b (b.cursor + 1)

/-- insert (commander.py lines 143-151): typing a left bracket sets the
autoclosing flag; the text gains k at the cursor; the cursor moves right by
one through the clamping setter; the completion state is cleared. -/
def bufInsert (b : CommandBuffer) (k : List Char) : CommandBuffer :=
  { setCursor
      { b with autoclosing := (if k = [('[' : Char)] then true else b.autoclosing),
               text := b.text.take b.cursor.toNat ++ k ++ b.text.drop b.cursor.toNat }
      (b.cursor + 1)
    with completion := none }

/-- The text and flag part of backspace (commander.py lines 128-139),
reached only when the cursor is positive: an adjacent quote, paren or
bracket pair around the cursor is deleted as a unit; otherwise one
character is deleted and deleting a bracket flips the autoclosing flag. -/
def bufBackspaceText (b : CommandBuffer) : CommandBuffer :=
  if (b.text.drop (b.cursor.toNat - 1)).take 2 = [sq, sq] ∨
     (b.text.drop (b.cursor.toNat - 1)).take 2 = [dq, dq] ∨
     (b.text.drop (b.cursor.toNat - 1)).take 2 = [('(' : Char), (')' : Char)] ∨
     (b.text.drop (b.cursor.toNat - 1)).take 2 = [('[' : Char), (']' : Char)] then
    { b with text := b.text.take (b.cursor.toNat - 1) ++ b.text.drop (b.cursor.toNat + 1) }
  else if (b.text.drop (b.cursor.toNat - 1)).take 1 = [(']' : Char)] then
    { b with autoclosing := false,
             text := b.text.take (b.cursor.toNat - 1) ++ b.text.drop b.cursor.toNat }
  else if (b.text.drop (b.cursor.toNat - 1)).take 1 = [('[' : Char)] then
    { b with autoclosing := true,
             text := b.text.take (b.cursor.toNat - 1) ++ b.text.drop b.cursor.toNat }
  else
    { b with text := b.text.take (b.cursor.toNat - 1) ++ b.text.drop b.cursor.toNat }

/-- backspace (commander.py lines 125-141): a return at cursor 0,
otherwise the text edit of bufBackspaceText, then the cursor moves left by
one through the clamping setter and the completion state is cleared. -/
def bufBackspace (b : CommandBuffer) : CommandBuffer :=
  if b.cursor = 0 then b
  else
    { setCursor (bufBackspaceText b) ((bufBackspaceText b).cursor - 1)
      with completion := none }

/-- ListCompleter.cycle (commander.py lines 33-38): with no options return
the start text unchanged, otherwise return the option at the offset and
advance the offset modulo the option count. -/
def lcCycle (lc : CompleterState) : String × CompleterState :=
  if lc.options.isEmpty then (lc.start, lc)
  else (lc.options.getD lc.offset "",
        { lc with offset := (lc.offset + 1) % lc.options.length })

/-- cycle_completion (commander.py lines 106-123). With no active
completion state it first re-parses the text up to the cursor via
parse_partial, which raises TypeError (see parseTolerantLine), so the
exception propagates and the buffer is unchanged; the ok branch after a
successful parse is therefore unreachable and returns the buffer as a
placeholder for the state the real continuation would build. With an
active completion state it cycles the completer and replaces the trailing
token, moving the cursor to the end of the text. -/
def bufCycleCompletion (oneword : List String) (b : CommandBuffer) :
    Except PyErr CommandBuffer :=
  match b.completion with
  | none =>
    match parseTolerantLine oneword (String.mk (b.text.take b.cursor.toNat)) with
    | .error e => .error e
    | .ok _ => .ok b
  | some st =>
    .ok (setCursor
          { b with completion := some { st with completer := (lcCycle st.completer).2 },
                   text := (String.join ((st.parse.dropLast).map ParseResultVal.value) ++
                            (lcCycle st.completer).1).data }
          ((String.join ((st.parse.dropLast).map ParseResultVal.value) ++
            (lcCycle st.completer).1).length : Int))

/-- render (commander.py lines 72-98): the first step calls parse_partial
on the buffer text, and every later step is unreachable because that call
raises (see parseTolerantLine); had parse_partial returned, render would
return the single span of the whole buffer text (commander.py line 98). -/
def bufRender (oneword : List String) (b : CommandBuffer) :
    Except PyErr (List (String × String)) :=
  match parseTolerantLine oneword (String.mk b.text) with
  | .error e => .error e
  | .ok _ => .ok [("text", String.mk b.text)]

/-- The documented cursor invariant (commander.py line 54: the cursor is
always within the range from 0 to len(buffer)). -/
def CursorInv (b : CommandBuffer) : Prop :=
  0 ≤ b.cursor ∧ b.cursor ≤ (b.text.length : Int)

/-- A concrete two-character buffer with the cursor after the first
character, used to instantiate buffer theorems. -/
def bufEx : CommandBuffer :=
  { text := "ab".data, autoclosing := true, cursor := 1, completion := none }

/-! ## Lemmas about the lexer -/

theorem spanP_snd_le (p : Char → Bool) :
    ∀ cs : List Char, (spanP p cs).2.length ≤ cs.length := by
  intro cs
  induction cs with
  | nil => simp [spanP]
  | cons c cs ih =>
    by_cases h : p c
    · simpa [spanP, h] using Nat.le_succ_of_le ih
    · simp [spanP, h]

theorem spanP_snd_lt_of_head (p : Char → Bool) (c : Char) (cs : List Char)
    (h : p c = true) : (spanP p (c :: cs)).2.length < (c :: cs).length := by
  simpa [spanP, h] using Nat.lt_succ_of_le (spanP_snd_le p cs)

theorem spanP_snd_lt_of_fst_ne (p : Char → Bool) (cs : List Char)
    (h : (spanP p cs).1.isEmpty = false) :
    (spanP p cs).2.length < cs.length := by
  cases cs with
  | nil => simp [spanP] at h
  | cons c cs =>
    by_cases hc : p c
    · exact spanP_snd_lt_of_head p c cs hc
    · simp [spanP, hc] at h

theorem dotGroups_snd_le : ∀ (fuel : Nat) (cs : List Char),
    (dotGroups fuel cs).2.length ≤ cs.length := by
  intro fuel
  induction fuel with
  | zero => intro cs; simp [dotGroups]
  | succ n ih =>
    intro cs
    cases cs with
    | nil => simp [dotGroups]
    | cons c cs1 =>
      by_cases hc : c = '.'
      · by_cases hw : (spanP isWordChar cs1).1.isEmpty
        · simp [dotGroups, hc, hw]
        · simp only [dotGroups, hc, hw, if_true, if_false, Bool.false_eq_true]
          calc (dotGroups n (spanP isWordChar cs1).2).2.length
              ≤ (spanP isWordChar cs1).2.length := ih _
            _ ≤ cs1.length := spanP_snd_le _ _
            _ ≤ (c :: cs1).length := Nat.le_succ_of_le (Nat.le_refl _)
      · simp [dotGroups, hc]

theorem scanCommand_rest_lt {cs : List Char} {t r : List Char}
    (h : scanCommand cs = some (t, r)) : r.length < cs.length := by
  unfold scanCommand at h
  by_cases h1 : (spanP isWordChar cs).1.isEmpty
  · simp [h1] at h
  · simp only [h1, if_false, Bool.false_eq_true] at h
    by_cases h2 : (dotGroups cs.length (spanP isWordChar cs).2).1.isEmpty
    · simp [h2] at h
    · simp only [h2, if_false, Bool.false_eq_true, Option.some.injEq, Prod.mk.injEq] at h
      calc r.length = (dotGroups cs.length (spanP isWordChar cs).2).2.length := by rw [h.2]
        _ ≤ (spanP isWordChar cs).2.length := dotGroups_snd_le _ _
        _ < cs.length := spanP_snd_lt_of_fst_ne _ _ (by simpa using h1)

theorem scanQuoted_rest_lt {q : Char} {cs : List Char} {t r : List Char}
    (h : scanQuoted q cs = some (t, r)) : r.length < cs.length := by
  unfold scanQuoted at h
  by_cases h1 : (spanP (fun c => c == q) cs).1.isEmpty
  · simp [h1] at h
  · have hlt1 : (spanP (fun c => c == q) cs).2.length < cs.length :=
      spanP_snd_lt_of_fst_ne _ _ (by simpa using h1)
    simp only [h1, if_false, Bool.false_eq_true] at h
    by_cases h2 : (spanP (fun c => c == q)
        ((spanP (fun c => !(c == q)) (spanP (fun c => c == q) cs).2).2)).1.isEmpty
    · simp only [h2, if_true] at h
      by_cases h3 : 2 ≤ (spanP (fun c => c == q) cs).1.length
      · simp only [h3, if_true, Option.some.injEq, Prod.mk.injEq] at h
        rw [← h.2]; exact hlt1
      · simp [h3] at h
    · simp only [h2, if_false, Bool.false_eq_true, Option.some.injEq, Prod.mk.injEq] at h
      calc r.length
          = (spanP (fun c => c == q)
              ((spanP (fun c => !(c == q)) (spanP (fun c => c == q) cs).2).2)).2.length := by
            rw [h.2]
        _ ≤ (spanP (fun c => !(c == q)) (spanP (fun c => c == q) cs).2).2.length :=
            spanP_snd_le _ _
        _ ≤ (spanP (fun c => c == q) cs).2.length := spanP_snd_le _ _
        _ < cs.length := hlt1

theorem scanOne_progress (ow : List String) (c : Char) (cs : List Char) :
    ∃ t r, scanOne ow (c :: cs) = some (t, r) ∧ r.length < (c :: cs).length := by
  by_cases hsp : pySpace c
  · exact ⟨⟨.WHITESPACE, (spanP pySpace (c :: cs)).1⟩, (spanP pySpace (c :: cs)).2,
      by simp [scanOne, hsp], spanP_snd_lt_of_head pySpace c cs hsp⟩
  · by_cases hlp : c = '('
    · exact ⟨⟨.LPAREN, [c]⟩, cs, by simp [scanOne, pySpace, hlp], by simp⟩
    · by_cases hrp : c = ')'
      · exact ⟨⟨.RPAREN, [c]⟩, cs, by simp [scanOne, pySpace, hlp, hrp], by simp⟩
      · by_cases hlb : c = '['
        · exact ⟨⟨.LBRACE, [c]⟩, cs, by simp [scanOne, pySpace, hlp, hrp, hlb], by simp⟩
        · by_cases hrb : c = ']'
          · exact ⟨⟨.RBRACE, [c]⟩, cs, by simp [scanOne, pySpace, hlp, hrp, hlb, hrb], by simp⟩
          · by_cases hpi : c = '|'
            · exact ⟨⟨.PIPE, [c]⟩, cs, by simp [scanOne, pySpace, hlp, hrp, hlb, hrb, hpi], by simp⟩
            · rcases hsc : scanCommand (c :: cs) with _ | ⟨tc, rc⟩
              · rcases hq1 : scanQuoted sq (c :: cs) with _ | ⟨t1, r1⟩
                · rcases hq2 : scanQuoted dq (c :: cs) with _ | ⟨t2, r2⟩
                  · have hex : plainExcluded c = false := by
                      simp [plainExcluded, hlp, hrp, hlb, hrb, hpi, hsp]
                    have hne : (spanP (fun x => !plainExcluded x) (c :: cs)).1.isEmpty = false := by
                      simp [spanP, hex]
                    refine ⟨⟨if ow.contains (String.mk (spanP (fun x => !plainExcluded x) (c :: cs)).1)
                               then TokKind.COMMAND else TokKind.PLAIN_STR,
                             (spanP (fun x => !plainExcluded x) (c :: cs)).1⟩,
                      (spanP (fun x => !plainExcluded x) (c :: cs)).2, ?_, ?_⟩
                    · simp [scanOne, hsp, hlp, hrp, hlb, hrb, hpi, hsc, hq1, hq2, hne]
                    · exact spanP_snd_lt_of_head _ c cs (by simp [hex])
                  · exact ⟨⟨.QUOTED_STR, t2⟩, r2,
                      by simp [scanOne, hsp, hlp, hrp, hlb, hrb, hpi, hsc, hq1, hq2],
                      scanQuoted_rest_lt hq2⟩
                · exact ⟨⟨.QUOTED_STR, t1⟩, r1,
                    by simp [scanOne, hsp, hlp, hrp, hlb, hrb, hpi, hsc, hq1],
                    scanQuoted_rest_lt hq1⟩
              · exact ⟨⟨.COMMAND, tc⟩, rc,
                  by simp [scanOne, hsp, hlp, hrp, hlb, hrb, hpi, hsc],
                  scanCommand_rest_lt hsc⟩

theorem lexAux_total (ow : List String) :
    ∀ (fuel : Nat) (cs : List Char), cs.length ≤ fuel →
      ∃ ts, lexAux ow fuel cs = .ok ts := by
  intro fuel
  induction fuel with
  | zero =>
    intro cs h
    have : cs = [] := List.length_eq_zero.mp (Nat.le_zero.mp h)
    exact ⟨[], by simp [this, lexAux]⟩
  | succ n ih =>
    intro cs h
    cases cs with
    | nil => exact ⟨[], rfl⟩
    | cons c cs =>
      obtain ⟨t, r, hs, hlt⟩ := scanOne_progress ow c cs
      obtain ⟨ts, hts⟩ := ih r (by
        have := Nat.lt_of_lt_of_le hlt h
        omega)
      exact ⟨t :: ts, by simp [lexAux, hs, hts]⟩

/-- Claim C9: confirmed. The lexer is total: every input string tokenizes
without error, because every character class is covered by some rule
(word-start sequences by t_COMMAND or t_PLAIN_STR, quotes by t_QUOTED_STR
or t_PLAIN_STR, delimiters and whitespace by the string rules), so the
missing t_error hook is never invoked. The concrete conjuncts show
malformed fragments emitted as ordinary tokens: an unterminated quote
becomes a plain-string token and a stray closing bracket becomes its own
delimiter token, with rejection left to the grammar layer. -/
theorem C9_lexer_total :
    (∀ (ow : List String) (s : String), ∃ ts, lexInteractive ow s = .ok ts) ∧
    lexInteractive [] "\"ab" = .ok [⟨.PLAIN_STR, "\"ab".data⟩] ∧
    lexInteractive [] "]a" = .ok [⟨.RBRACE, "]".data⟩, ⟨.PLAIN_STR, "a".data⟩] := by
  refine ⟨fun ow s => lexAux_total ow s.length s.data (Nat.le_refl _), ?_, ?_⟩
  · rfl
  · rfl

/-! ## Lemmas about the grammars -/

theorem tolDer_no_pipe {cat : TolCat} {ts : List TokKind} (h : TolDer cat ts) :
    TokKind.PIPE ∉ ts := by
  induction h <;> simp_all [List.mem_append]

/-- Claim C1: refuted by the code (code_bug). The line joining the command
references a.b and c.d with a pipe is accepted by the strict grammar (a
two-stage pipeline), and is a prefix of itself, yet its interactive token
stream contains a PIPE token while no production of the tolerant grammar
derives any string containing PIPE (the grammar lists the token but never
uses it), so on this prefix the generated tolerant parser reaches p_error
and raises CommandError. -/
theorem C1_pipe_prefix_reaches_error :
    StrictDer .line (kindsOf (tokensOrNil (lexStrict [] "a.b | c.d"))) ∧
    TokKind.PIPE ∈ kindsOf (tokensOrNil (lexInteractive [] "a.b | c.d")) ∧
    ¬ TolDer .commandLine (kindsOf (tokensOrNil (lexInteractive [] "a.b | c.d"))) := by
  refine ⟨?_, ?_, ?_⟩
  · have e : kindsOf (tokensOrNil (lexStrict [] "a.b | c.d")) =
        [TokKind.COMMAND, TokKind.PIPE, TokKind.COMMAND] := by decide
    rw [e]
    exact StrictDer.line_pipe
      (StrictDer.pipeline_cons
        (StrictDer.pipeline_one
          (StrictDer.stage_call (StrictDer.call_bare (Or.inl rfl) StrictDer.args_nil)))
        (StrictDer.stage_call (StrictDer.call_bare (Or.inl rfl) StrictDer.args_nil)))
  · decide
  · intro h
    exact tolDer_no_pipe h (by decide)

/-! ## Lemmas about parse_partial -/

theorem parseTolerant_raises (oneword : List String) (cmdstr : String) :
    parseTolerantLine oneword cmdstr = .error (.typeError ("unhashable type: list")) := rfl

/-- Claim C2: refuted by the code (code_bug). parse_partial on the line
naming the unregistered command nosuch does not return spans at all:
CommandManager.parse_partial passes self.oneword_commands positionally into
the state parameter of InteractiveLexer, get_tokens hands that list to
lex.Lexer.begin, and hashing the list for the state lookup raises
TypeError, which the except clause (CommandError only) does not catch. -/
theorem C2_parse_raises :
    ∀ oneword : List String,
      parseTolerantLine oneword "nosuch 1 2" = .error (.typeError ("unhashable type: list")) :=
  fun _ => rfl

/-! ## Theorems about the command registry -/

/-- Claim C3: refuted by the code (code_bug). First conjunct: a command
whose callable declares no return type but returns the non-None string x
does not have the value discarded; Command.call reaches
CommandTypes.get(None), which yields None, and the is_valid attribute
access on None raises AttributeError even though the arguments (here none
at all) are valid. Second and third conjuncts: with a declared return type
the returned-unexpected-data CommandError is raised exactly when the
produced value does not validate, as the claim states for that half. -/
theorem C3_discard_crashes :
    cmdCall noRetCmd [] = .error (.attributeError ("NoneType object has no attribute is_valid")) ∧
    cmdCall (retStrCmd (fun _ => .vInt 3)) [] =
      .error (.commandError ("returned unexpected data - expected str")) ∧
    cmdCall (retStrCmd (fun _ => .vStr ("ok"))) [] = .ok (.vStr ("ok")) := by
  exact ⟨rfl, rfl, rfl⟩

/-- Claim C6 (amended): a command declared with the two non-variadic
parameters A and B fails argument preparation with the CommandError
wrapping the signature-binding mismatch message when given one or three
string arguments — the message names the mismatch kind (a missing required
argument, or too many positional arguments) rather than the expected vs
actual counts — and with two well-typed string arguments preparation
returns exactly the two coerced values and the call proceeds (the callable
here returns None with no declared return type, so the call succeeds). -/
theorem C6_arity (A B : MType) (s1 s2 s3 a b : String) (va vb : MVal)
    (hA : typeParse A a = .ok va) (hB : typeParse B b = .ok vb) :
    prepare_args (twoParamCmd A B) [.vStr s1] =
      .error (.commandError ("command argument mismatch: missing a required argument")) ∧
    prepare_args (twoParamCmd A B) [.vStr s1, .vStr s2, .vStr s3] =
      .error (.commandError ("command argument mismatch: too many positional arguments")) ∧
    prepare_args (twoParamCmd A B) [.vStr a, .vStr b] = .ok [va, vb] ∧
    cmdCall (twoParamCmd A B) [.vStr a, .vStr b] = .ok .vNone := by
  refine ⟨rfl, rfl, ?_, ?_⟩
  · simp [prepare_args, twoParamCmd, verify_arg_sig, coerceArgs, parsearg, hA, hB]
  · simp [cmdCall, prepare_args, twoParamCmd, verify_arg_sig, coerceArgs, parsearg, hA, hB]

theorem C6_arity_witness :
    typeParse .tStr "u" = .ok (.vStr ("u")) ∧
    typeParse .tStr "v" = .ok (.vStr ("v")) ∧
    (prepare_args (twoParamCmd .tStr .tStr) [.vStr "p"] =
       .error (.commandError ("command argument mismatch: missing a required argument")) ∧
     prepare_args (twoParamCmd .tStr .tStr) [.vStr "p", .vStr "q", .vStr "r"] =
       .error (.commandError ("command argument mismatch: too many positional arguments")) ∧
     prepare_args (twoParamCmd .tStr .tStr) [.vStr "u", .vStr "v"] =
       .ok [.vStr ("u"), .vStr ("v")] ∧
     cmdCall (twoParamCmd .tStr .tStr) [.vStr "u", .vStr "v"] = .ok .vNone) :=
  ⟨rfl, rfl, C6_arity .tStr .tStr "p" "q" "r" "u" "v" (.vStr ("u")) (.vStr ("v")) rfl rfl⟩

/-- Claim C6 counterexample: the claim as stated requires the
argument-mismatch error to name the expected vs actual counts, but the
raised CommandError wraps the Signature.bind message, which names the
mismatch kind only. Concretely, for the command with two declared string
parameters invoked with one and with three string arguments, the raised
messages contain no digit at all, so they name neither the expected count
2 nor the actual counts 1 and 3. -/
theorem C6_message_names_no_counts :
    prepare_args (twoParamCmd .tStr .tStr) [.vStr "p"] =
      .error (.commandError ("command argument mismatch: missing a required argument")) ∧
    ("command argument mismatch: missing a required argument").data.all
      (fun c => !c.isDigit) = true ∧
    prepare_args (twoParamCmd .tStr .tStr) [.vStr "p", .vStr "q", .vStr "r"] =
      .error (.commandError ("command argument mismatch: too many positional arguments")) ∧
    ("command argument mismatch: too many positional arguments").data.all
      (fun c => !c.isDigit) = true := by
  exact ⟨rfl, by decide, rfl, by decide⟩

/-! ## Theorems about the asynchronous execution tracker -/

theorem any_filter_eq_false (l : List (Nat × String)) (cid : Nat) :
    ((l.filter (fun p => !(p.1 == cid))).any (fun p => p.1 == cid)) = false := by
  induction l with
  | nil => rfl
  | cons p l ih =>
    rw [List.filter_cons]
    cases hb : (p.1 == cid) with
    | false => simp [hb, ih]
    | true => simp [ih]

/-- Claim C4: confirmed. For an untracked id, stop_command raises the
no-such-running-command ValueError and returns the tracker unchanged; for a
tracked id it requests cancellation of the underlying task, removes the
entry before returning, and an immediately repeated stop_command on the
same id fails rather than silently succeeding. -/
theorem C4_stop_command (m : AEM) (cid : Nat) :
    (tracked m cid = false →
      stop_command m cid = (m, some (.valueError ("There is not the command with id")))) ∧
    (tracked m cid = true →
      (stop_command m cid).2 = none ∧
      tracked (stop_command m cid).1 cid = false ∧
      (stop_command m cid).1.tasks = setTask m.tasks cid .cancelRequested ∧
      (stop_command (stop_command m cid).1 cid).2 =
        some (.valueError ("There is not the command with id")))  := by
  constructor
  · intro h
    simp [stop_command, h]
  · intro h
    have hstop : stop_command m cid =
        ({ m with running_cmds := m.running_cmds.filter (fun p => !(p.1 == cid)),
                  tasks := setTask m.tasks cid .cancelRequested }, none) := by
      simp [stop_command, h]
    have h2 : tracked { m with
        running_cmds := m.running_cmds.filter (fun p => !(p.1 == cid)),
        tasks := setTask m.tasks cid .cancelRequested } cid = false :=
      any_filter_eq_false m.running_cmds cid
    refine ⟨by rw [hstop], by rw [hstop]; exact h2, by rw [hstop], ?_⟩
    rw [hstop]
    simp [stop_command, h2]

theorem C4_stop_command_witness :
    (tracked (⟨0, [], []⟩ : AEM) 7 = false ∧
      stop_command (⟨0, [], []⟩ : AEM) 7 =
        (⟨0, [], []⟩, some (.valueError ("There is not the command with id")))) ∧
    (tracked (add_command ⟨0, [], []⟩ "sleep 10") 1 = true ∧
      (stop_command (add_command ⟨0, [], []⟩ "sleep 10") 1).2 = none ∧
      tracked (stop_command (add_command ⟨0, [], []⟩ "sleep 10") 1).1 1 = false ∧
      (stop_command (add_command ⟨0, [], []⟩ "sleep 10") 1).1.tasks =
        setTask (add_command ⟨0, [], []⟩ "sleep 10").tasks 1 .cancelRequested ∧
      (stop_command (stop_command (add_command ⟨0, [], []⟩ "sleep 10") 1).1 1).2 =
        some (.valueError ("There is not the command with id"))) :=
  ⟨⟨by decide, (C4_stop_command ⟨0, [], []⟩ 7).1 (by decide)⟩,
   ⟨by decide, (C4_stop_command (add_command ⟨0, [], []⟩ "sleep 10") 1).2 (by decide)⟩⟩

/-- Claim C5 counterexample: the completion hook does fail in the
cancellation mode routed through stop_command. After adding the invocation
(id 1) and cancelling it, the entry is already removed from the tracker;
when the cancelled task then finishes, the delete callback fires and its
del raises KeyError, so the hook itself fails, contradicting the claim that
the hook does not fail in all three finishing modes. -/
theorem C5_hook_fails_after_cancel :
    (finishTask (stop_command (add_command ⟨0, [], []⟩ "sleep 10") 1).1 1
        .finishedCancelled).2 = some (.keyError ("cid")) := by decide

/-- Claim C5 (amended): after any task finishes, the tracker no longer
contains its id, and the completion hook succeeds (removing the entry)
exactly when the entry was still tracked at finish time, which covers
success, failure, and cancellation not routed through stop_command; when
stop_command already removed the entry, the late hook fails with KeyError
instead of succeeding idly. -/
theorem C5_hook_removes_entry (m : AEM) (cid : Nat) (outcome : TaskState) :
    tracked (finishTask m cid outcome).1 cid = false ∧
    ((finishTask m cid outcome).2 = none ↔ tracked m cid = true) := by
  have htr : tracked { m with tasks := setTask m.tasks cid outcome } cid = tracked m cid := rfl
  cases h : tracked m cid with
  | true =>
    have hfin : finishTask m cid outcome =
        ({ m with tasks := setTask m.tasks cid outcome,
                  running_cmds := m.running_cmds.filter (fun p => !(p.1 == cid)) }, none) := by
      simp [finishTask, htr, h]
    constructor
    · rw [hfin]
      exact any_filter_eq_false m.running_cmds cid
    · rw [hfin]
      simp [h]
  | false =>
    have hfin : finishTask m cid outcome =
        ({ m with tasks := setTask m.tasks cid outcome }, some (.keyError ("cid"))) := by
      simp [finishTask, htr, h]
    constructor
    · rw [hfin]
      exact h
    · rw [hfin]
      simp [h]

/-! ## Theorems about the markup structures -/

/-- Claim C7: refuted by the code (code_bug). In CommandSpace.__init__ the
declared parameter types are indeed consumed in declaration order, but once
they are exhausted the except IndexError handler appends the invalid node
and then falls through (there is no continue), appending a second node for
the same extra argument re-checked against the stale previous type: for the
one-int-parameter command applied to the arguments 1 and 2, the extra
argument 2 yields two nodes, the second even tagged valid. With no declared
parameters at all, the fall-through reads the never-assigned local typ and
the constructor raises UnboundLocalError. -/
theorem C7_extra_arg_duplicated :
    csArguments [.tInt] ["1", "2"] =
      .ok [{ value := "1", typ := some .tInt, valid := true },
           { value := "2", typ := none, valid := false },
           { value := "2", typ := some .tInt, valid := true }] ∧
    csArguments [] ["a"] =
      .error (.unboundLocalError ("local variable typ referenced before assignment")) := by
  exact ⟨rfl, rfl⟩

/-! ## Theorems about the command buffer -/

/-- Claim C8: refuted by the code (code_bug). render never returns a span
sequence: its first step calls parse_partial on the buffer text, and that
call raises TypeError for every input (the one-word command list is passed
as the lexer state, see C2), so render raises through for every buffer and
cursor instead of returning spans. Had the parse returned, the returned
value would be the single span of the whole buffer text, which trivially
matches the text up to any cursor offset. -/
theorem C8_render_raises :
    ∀ (oneword : List String) (b : CommandBuffer),
      bufRender oneword b = .error (.typeError ("unhashable type: list")) := by
  intro ow b
  simp [bufRender, parseTolerant_raises]

theorem setCursor_inv (b : CommandBuffer) (x : Int) : CursorInv (setCursor b x) := by
  unfold CursorInv setCursor
  by_cases h1 : x < 0
  · simp [h1]
  · by_cases h2 : (b.text.length : Int) < x
    · simp [h1, h2]
    · simp [h1, h2]
      omega

theorem cursorInv_completion (b : CommandBuffer) (c : Option CompletionState) :
    CursorInv { b with completion := c } ↔ CursorInv b := Iff.rfl

/-- Claim C10: confirmed. The cursor setter clamps every assigned value
into the range from 0 to len(text) (first conjunct, with no hypothesis on
the incoming value), and insert, backspace, left, right and a successful
cycle_completion all leave the cursor in range; left at 0 and right at
end-of-text clamp rather than fail, backspace at 0 returns the buffer
unchanged, and a cycle_completion that raises leaves the buffer untouched,
so the invariant is preserved by every buffer operation. -/
theorem C10_cursor_invariant (b : CommandBuffer) (k : List Char) (x : Int)
    (oneword : List String) (h : CursorInv b) :
    CursorInv (setCursor b x) ∧
    CursorInv (bufInsert b k) ∧
    CursorInv (bufBackspace b) ∧
    CursorInv (bufLeft b) ∧
    CursorInv (bufRight b) ∧
    (∀ b2, bufCycleCompletion oneword b = .ok b2 → CursorInv b2) := by
  refine ⟨setCursor_inv b x, ?_, ?_, setCursor_inv b _, setCursor_inv b _, ?_⟩
  · exact (cursorInv_completion _ _).mpr (setCursor_inv _ _)
  · unfold bufBackspace
    by_cases h0 : b.cursor = 0
    · simpa [h0] using h
    · simpa [h0] using (cursorInv_completion _ _).mpr (setCursor_inv _ _)
  · intro b2 hb2
    unfold bufCycleCompletion at hb2
    cases hc : b.completion with
    | none =>
      rw [hc, parseTolerant_raises] at hb2
      exact absurd hb2 (by simp)
    | some st =>
      rw [hc] at hb2
      have : b2 = setCursor
          { b with completion := some { st with completer := (lcCycle st.completer).2 },
                   text := (String.join ((st.parse.dropLast).map ParseResultVal.value) ++
                            (lcCycle st.completer).1).data }
          ((String.join ((st.parse.dropLast).map ParseResultVal.value) ++
            (lcCycle st.completer).1).length : Int) := by
        cases hb2
        rfl
      rw [this]
      exact setCursor_inv _ _

theorem C10_cursor_invariant_witness :
    CursorInv bufEx ∧
    (CursorInv (setCursor bufEx 5) ∧
     CursorInv (bufInsert bufEx "x".data) ∧
     CursorInv (bufBackspace bufEx) ∧
     CursorInv (bufLeft bufEx) ∧
     CursorInv (bufRight bufEx) ∧
     (∀ b2, bufCycleCompletion [] bufEx = .ok b2 → CursorInv b2)) :=
  ⟨⟨by decide, by decide⟩,
   C10_cursor_invariant bufEx "x".data 5 [] ⟨by decide, by decide⟩⟩

end Mitm
